import Mathlib

/-!
Shallow embedding of the go-docpdf service (github.com/BRO3886/go-docpdf).

Each Go package is embedded as a Lean namespace carrying executable
definitions translated from the Go source:

* `metrics`    — internal/metrics/metrics.go: the histogram, the Registry with
  its counters and gauge, and the Prometheus text exposition `writeTo`.
* `middleware` — internal/middleware/middleware.go: the per-request
  observability state, the RequestID / Logging / Metrics middleware and the
  UUIDv4 generator.
* `converter`  — internal/converter/converter.go: the LibreOffice `Convert`
  branch structure over an explicit environment of subprocess effects.
* `handler`    — internal/handler/handler.go: `hasDocxMagic` and the
  `Convert.ServeHTTP` branch structure over an explicit environment.

Effectful Go steps (subprocess runs, filesystem calls, random bytes) are made
explicit parameters, so every definition is a computable Lean function.
-/

namespace metrics

/-- histBuckets from metrics.go: the eight upper bounds (milliseconds) for
conversion duration, indexed in source order. -/
def histBuckets : Fin 8 → Int
  | 0 => 100
  | 1 => 250
  | 2 => 500
  | 3 => 1000
  | 4 => 2500
  | 5 => 5000
  | 6 => 10000
  | 7 => 30000

/-- histogram from metrics.go: one cumulative counter per histBuckets entry,
plus the sum of observed milliseconds and the total number of observations.
(The Go fields are atomic int64 cells; the embedding models the values.) -/
structure histogram where
  counts : Fin 8 → Int
  sum : Int
  total : Int

/-- histogram.observe from metrics.go: add ms to sum, add 1 to total, and for
every bucket index i with ms ≤ histBuckets i add 1 to that bucket counter. -/
def histogram.observe (h : histogram) (ms : Int) : histogram where
  counts := fun i => if ms ≤ histBuckets i then h.counts i + 1 else h.counts i
  sum := h.sum + ms
  total := h.total + 1

/-- Registry from metrics.go: three outcome counters, the in-flight gauge and
the duration histogram. -/
structure Registry where
  convSuccess : Int
  convTimeout : Int
  convFailed : Int
  convInFlight : Int
  hist : histogram

/-- New from metrics.go: a zero-value Registry. -/
def New : Registry :=
  { convSuccess := 0, convTimeout := 0, convFailed := 0, convInFlight := 0,
    hist := { counts := fun _ => 0, sum := 0, total := 0 } }

/-- Registry.IncSuccess from metrics.go. -/
def Registry.IncSuccess (r : Registry) : Registry :=
  { r with convSuccess := r.convSuccess + 1 }

/-- Registry.IncTimeout from metrics.go. -/
def Registry.IncTimeout (r : Registry) : Registry :=
  { r with convTimeout := r.convTimeout + 1 }

/-- Registry.IncFailed from metrics.go. -/
def Registry.IncFailed (r : Registry) : Registry :=
  { r with convFailed := r.convFailed + 1 }

/-- Registry.IncInFlight from metrics.go. -/
def Registry.IncInFlight (r : Registry) : Registry :=
  { r with convInFlight := r.convInFlight + 1 }

/-- Registry.DecInFlight from metrics.go. -/
def Registry.DecInFlight (r : Registry) : Registry :=
  { r with convInFlight := r.convInFlight - 1 }

/-- Registry.ObserveDuration from metrics.go. -/
def Registry.ObserveDuration (r : Registry) (ms : Int) : Registry :=
  { r with hist := r.hist.observe ms }

/-- Registry.writeTo from metrics.go: the Prometheus text exposition, one
string per emitted line (each Fprintf call in source order). -/
def Registry.writeTo (r : Registry) : List String :=
  ["# HELP docpdf_conversions_total Total conversion attempts by outcome.",
   "# TYPE docpdf_conversions_total counter",
   "docpdf_conversions_total\x7boutcome=\"success\"\x7d " ++ toString r.convSuccess,
   "docpdf_conversions_total\x7boutcome=\"timeout\"\x7d " ++ toString r.convTimeout,
   "docpdf_conversions_total\x7boutcome=\"failed\"\x7d " ++ toString r.convFailed,
   "# HELP docpdf_conversions_in_flight Current number of conversions in progress.",
   "# TYPE docpdf_conversions_in_flight gauge",
   "docpdf_conversions_in_flight " ++ toString r.convInFlight,
   "# HELP docpdf_conversion_duration_ms Conversion duration in milliseconds.",
   "# TYPE docpdf_conversion_duration_ms histogram"]
  ++ (List.ofFn fun i : Fin 8 =>
       "docpdf_conversion_duration_ms_bucket\x7ble=\"" ++ toString (histBuckets i)
         ++ "\"\x7d " ++ toString (r.hist.counts i))
  ++ ["docpdf_conversion_duration_ms_bucket\x7ble=\"+Inf\"\x7d " ++ toString r.hist.total,
      "docpdf_conversion_duration_ms_sum " ++ toString r.hist.sum,
      "docpdf_conversion_duration_ms_count " ++ toString r.hist.total]

/-- A sequence of `ObserveDuration` calls applied to a registry in order. -/
def Registry.applyObservations (r : Registry) (obs : List Int) : Registry :=
  obs.foldl Registry.ObserveDuration r

end metrics

namespace middleware

/-- requestState from middleware.go: per-request observability state set on
the context (request id, log-error reason, conversion outcome). -/
structure requestState where
  id : String
  logError : String
  outcome : String
deriving DecidableEq

/-- The request context's observability slot: `some` when RequestID middleware
attached a state, `none` when no state is present (code paths that bypass the
middleware). -/
abbrev ctxState := Option requestState

/-- RequestIDFromContext from middleware.go: the stored request id, or ""
when no state is present. -/
def RequestIDFromContext (s : ctxState) : String :=
  match s with
  | some st => st.id
  | none => ""

/-- SetOutcome from middleware.go: record the conversion outcome on the
context state; a no-op when no state is present. -/
def SetOutcome (s : ctxState) (outcome : String) : ctxState :=
  match s with
  | some st => some { st with outcome := outcome }
  | none => none

/-- SetLogError from middleware.go: record a human-readable error reason on
the context state; a no-op when no state is present. -/
def SetLogError (s : ctxState) (reason : String) : ctxState :=
  match s with
  | some st => some { st with logError := reason }
  | none => none

/-- hexDigit: one lowercase hexadecimal digit as printed by Go's %x verb
('0'..'9' for 0-9, 'a'..'f' for 10-15). -/
def hexDigit (n : Nat) : Char :=
  if n < 10 then Char.ofNat (48 + n) else Char.ofNat (87 + n)

/-- Two lowercase hex digits for one byte, as Go's %x prints each byte of a
byte slice. -/
def byteHex (b : Nat) : List Char :=
  [hexDigit (b / 16), hexDigit (b % 16)]

/-- Hex rendering of a byte slice: two lowercase hex digits per byte. -/
def bytesHex (bs : List Nat) : List Char :=
  (bs.map byteHex).flatten

/-- newUUID from middleware.go, with the 16 bytes produced by crypto/rand
made an explicit argument: force b[6] to (b[6] & 0x0f) | 0x40 (version 4)
and b[8] to (b[8] & 0x3f) | 0x80 (variant bits), then format
"%08x-%04x-%04x-%04x-%012x" over b[0:4], b[4:6], b[6:8], b[8:10], b[10:16]. -/
def newUUID (b : List Nat) : String :=
  let b := b.set 6 ((b.getD 6 0 &&& 0x0f) ||| 0x40)
  let b := b.set 8 ((b.getD 8 0 &&& 0x3f) ||| 0x80)
  String.mk (bytesHex (b.take 4)
    ++ '-' :: bytesHex ((b.drop 4).take 2)
    ++ '-' :: bytesHex ((b.drop 6).take 2)
    ++ '-' :: bytesHex ((b.drop 8).take 2)
    ++ '-' :: bytesHex (b.drop 10))

/-- RequestID from middleware.go, with the inbound X-Request-ID header value
and the random bytes explicit: reuse a non-empty inbound id, otherwise
generate a new UUIDv4; the result is both written as the response's
X-Request-ID header (first component) and attached as the context state
(second component, with empty outcome and logError). -/
def RequestID (headerID : String) (randomBytes : List Nat) : String × ctxState :=
  let id := if headerID = "" then newUUID randomBytes else headerID
  (id, some { id := id, logError := "", outcome := "" })

/-- responseRecorder from middleware.go: wraps the ResponseWriter capturing
the status code field. -/
structure responseRecorder where
  status : Int

/-- responseRecorder.WriteHeader from middleware.go: `rr.status = code`
(unconditionally overwrites the field on every call). -/
def responseRecorder.WriteHeader (_rr : responseRecorder) (code : Int) : responseRecorder :=
  { status := code }

/-- The recorder state after the inner handler made the given sequence of
WriteHeader calls; Logging initialises the recorder with status 200
(http.StatusOK). -/
def recorderAfter (writes : List Int) : responseRecorder :=
  writes.foldl responseRecorder.WriteHeader { status := 200 }

/-- The structured JSON log line emitted by Logging, as a record of its
fields (the map literal built in middleware.go). -/
structure LogEntry where
  time : String
  request_id : String
  method : String
  path : String
  status : Int
  duration_ms : Int
  error : Option String
deriving DecidableEq

/-- Logging from middleware.go, with the wall-clock inputs and the inner
handler's WriteHeader calls explicit: the single log line emitted after the
inner handler returns. `s` is the request context state (after the inner
handler ran; Logging reads it via r.Context()). The "error" field is present
only when a state is attached and its logError is non-empty. -/
def Logging (s : ctxState) (timeStr method path : String) (durationMs : Int)
    (writes : List Int) : LogEntry :=
  { time := timeStr
    request_id := RequestIDFromContext s
    method := method
    path := path
    status := (recorderAfter writes).status
    duration_ms := durationMs
    error :=
      match s with
      | some st => if st.logError ≠ "" then some st.logError else none
      | none => none }

/-- The result of running the inner handler under the Metrics middleware:
the context state after it ran, and whether it exited non-normally (a Go
panic propagating out of next.ServeHTTP) instead of returning. -/
structure InnerRun where
  stateAfter : ctxState
  panicked : Bool

/-- Metrics from middleware.go, over an explicit inner-handler run:
IncInFlight, then next.ServeHTTP; after a normal return, DecInFlight,
ObserveDuration with the measured milliseconds, then read the outcome from
the context (default "failed" when no state is attached or the outcome is
empty) and increment exactly one outcome counter per the switch. The source
uses no defer, so when the inner handler panics the statements after
next.ServeHTTP do not run and the registry keeps only the increment. -/
def Metrics (reg : metrics.Registry) (durationMs : Int) (run : InnerRun) :
    metrics.Registry :=
  let reg1 := reg.IncInFlight
  if run.panicked then reg1
  else
    let reg2 := reg1.DecInFlight
    let reg3 := reg2.ObserveDuration durationMs
    let outcome :=
      match run.stateAfter with
      | some st => if st.outcome ≠ "" then st.outcome else "failed"
      | none => "failed"
    if outcome = "success" then reg3.IncSuccess
    else if outcome = "timeout" then reg3.IncTimeout
    else reg3.IncFailed

end middleware

namespace converter

/-- The sentinel errors of converter.go: ErrTimeout, ErrNoOutput, and
ErrConversionFailed (the latter wraps the underlying process error, carried
here as the wrapped detail string). -/
inductive ConvError where
  | timeout : ConvError
  | noOutput : ConvError
  | conversionFailed (detail : String) : ConvError
deriving DecidableEq

/-- path/filepath.Base (slash-separated paths, as on the Linux deploy
target): the last element of the path after trailing slashes are removed;
"." for the empty path, "/" when the path is entirely slashes. -/
def filepathBase (path : String) : String :=
  if path = "" then "."
  else
    let cs := path.data.reverse.dropWhile (fun c => c = '/')
    let name := cs.takeWhile (fun c => c ≠ '/')
    if name = [] then "/" else String.mk name.reverse

/-- path/filepath.Ext: the suffix beginning at the final dot in the final
slash-separated element of the path; empty when there is no dot. -/
def filepathExt (path : String) : String :=
  let rev := path.data.reverse
  let alpha := rev.takeWhile (fun c => c ≠ '/' ∧ c ≠ '.')
  match rev.dropWhile (fun c => c ≠ '/' ∧ c ≠ '.') with
  | '.' :: _ => String.mk (alpha ++ ['.']).reverse
  | _ => ""

/-- strings.TrimSuffix: s without the provided trailing suffix; s unchanged
when the suffix is not present. -/
def trimSuffix (s suffix : String) : String :=
  if suffix.data.isSuffixOf s.data then
    String.mk (s.data.take (s.data.length - suffix.data.length))
  else s

/-- The output file name computed by LibreOffice.Convert in converter.go:
the base name of inputPath with its extension replaced by ".pdf"
(`strings.TrimSuffix(base, filepath.Ext(base)) + ".pdf"`). -/
def pdfName (inputPath : String) : String :=
  let base := filepathBase inputPath
  trimSuffix base (filepathExt base) ++ ".pdf"

/-- path/filepath.Join of the output directory and the PDF name as used in
converter.go. Go's Join also runs Clean on the result; for the slash-free
file name appended to a non-empty directory path considered here, Clean only
collapses redundant separators, so the embedding keeps the direct
`outDir ++ "/" ++ name` form. -/
def filepathJoin (outDir name : String) : String :=
  outDir ++ "/" ++ name

/-- The environment of one LibreOffice.Convert call in converter.go: whether
cmd.CombinedOutput returned an error (and its detail), whether the bounded
context had exceeded its deadline at that point, and the os.Stat result for
the expected PDF path (none = stat error, some n = a file of size n). -/
structure ConvertEnv where
  procErr : Option String
  deadlineExceeded : Bool
  statSize : Option Int

/-- LibreOffice.Convert from converter.go over an explicit environment:
a process error with an exceeded deadline is ErrTimeout; any other process
error is ErrConversionFailed wrapping the detail; a clean exit whose
expected output file is missing or zero-length is ErrNoOutput; otherwise
the joined output path is returned. -/
def Convert (inputPath outDir : String) (env : ConvertEnv) :
    Except ConvError String :=
  match env.procErr with
  | some detail =>
    if env.deadlineExceeded then .error .timeout
    else .error (.conversionFailed detail)
  | none =>
    let pdfPath := filepathJoin outDir (pdfName inputPath)
    match env.statSize with
    | none => .error .noOutput
    | some size => if size = 0 then .error .noOutput else .ok pdfPath

end converter

namespace handler

/-- maxFileSize from handler.go: 10 << 20 bytes (10 MiB). -/
def maxFileSize : Nat := 10 <<< 20

/-- docxMagic from handler.go: the PK ZIP header all OOXML files start
with. -/
def docxMagic : List Nat := [0x50, 0x4B, 0x03, 0x04]

/-- hasDocxMagic from handler.go: false for data shorter than 4 bytes,
otherwise whether the first 4 bytes equal the PK ZIP magic. -/
def hasDocxMagic (data : List Nat) : Bool :=
  if data.length < 4 then false
  else data.take 4 = docxMagic

/-- The environment of one Convert.ServeHTTP request in handler.go: every
fallible external step is explicit. `fileBytes` is the content of the
uploaded "file" field (ReadAll reads at most maxFileSize+1 bytes of it). -/
structure ServeEnv where
  parseFails : Bool
  fileFieldMissing : Bool
  readFails : Bool
  fileBytes : List Nat
  mkdirTempFails : Bool
  writeFileFails : Bool
  convert : Except converter.ConvError String
  pdfRead : Option (List Nat)

/-- The observable result of one Convert.ServeHTTP request: the HTTP status
written, whether the temporary directory was created, and whether the
Converter was invoked. -/
structure ServeResult where
  status : Int
  tempDirCreated : Bool
  converterCalled : Bool
deriving DecidableEq

/-- Convert.ServeHTTP from handler.go over an explicit environment,
threading the request-context observability state `s` through: non-POST →
405; multipart parse failure → 413; missing "file" field → 400; read
failure → 500; data longer than maxFileSize → 413; wrong magic → 415;
MkdirTemp/WriteFile failure → 500; converter ErrTimeout → 504; any other
converter error → 500; missing/empty PDF read-back → 500; otherwise 200.
The source contains no SetOutcome or SetLogError call on any path, so the
context state component is returned unchanged in every branch. -/
def ServeHTTP (method : String) (env : ServeEnv) (s : middleware.ctxState) :
    ServeResult × middleware.ctxState :=
  if method ≠ "POST" then (⟨405, false, false⟩, s)
  else if env.parseFails then (⟨413, false, false⟩, s)
  else if env.fileFieldMissing then (⟨400, false, false⟩, s)
  else if env.readFails then (⟨500, false, false⟩, s)
  else
    let data := env.fileBytes.take (maxFileSize + 1)
    if data.length > maxFileSize then (⟨413, false, false⟩, s)
    else if ¬ hasDocxMagic data then (⟨415, false, false⟩, s)
    else if env.mkdirTempFails then (⟨500, false, false⟩, s)
    else if env.writeFileFails then (⟨500, true, false⟩, s)
    else
      match env.convert with
      | .error e =>
        if e = converter.ConvError.timeout then (⟨504, true, true⟩, s)
        else (⟨500, true, true⟩, s)
      | .ok _ =>
        match env.pdfRead with
        | none => (⟨500, true, true⟩, s)
        | some pdfData =>
          if pdfData.length = 0 then (⟨500, true, true⟩, s)
          else (⟨200, true, true⟩, s)

end handler

/-- Lowercase hexadecimal character ('0'-'9' or 'a'-'f'). -/
def isHexChar (c : Char) : Bool :=
  (48 ≤ c.toNat && c.toNat ≤ 57) || (97 ≤ c.toNat && c.toNat ≤ 102)

/-- Follows the spec's words (refinement target, not translated from the
code): a 36-character canonical hyphenated hex UUID representation in the
8-4-4-4-12 group layout, every non-hyphen character a lowercase hex digit,
whose version nibble (first character of the third group) is '4' and whose
variant character (first character of the fourth group) has its top two
bits 10, i.e. is one of '8', '9', 'a', 'b', per the UUIDv4 specification. -/
def specCanonicalUUIDv4 (str : String) : Prop :=
  ∃ g1 g2 g3 g4 g5 : List Char,
    str.data = g1 ++ '-' :: g2 ++ '-' :: g3 ++ '-' :: g4 ++ '-' :: g5 ∧
    g1.length = 8 ∧ g2.length = 4 ∧ g3.length = 4 ∧ g4.length = 4 ∧
    g5.length = 12 ∧
    (∀ c ∈ g1 ++ g2 ++ g3 ++ g4 ++ g5, isHexChar c = true) ∧
    g3.headD ' ' = '4' ∧
    g4.headD ' ' ∈ ['8', '9', 'a', 'b']

/-- C3: `ObserveDuration(ms)` increments exactly those bucket counters whose
threshold (from the ascending sequence 100, 250, 500, 1000, 2500, 5000,
10000, 30000 ms) is ≥ ms, adds ms to the sum and 1 to the total-observations
counter; for ms = 0 every bucket counter is incremented, and for ms > 30000
no bucket counter is incremented. -/
theorem observeDuration_buckets (r : metrics.Registry) (ms : Int) :
    (∀ i : Fin 8, (r.ObserveDuration ms).hist.counts i =
      if metrics.histBuckets i ≥ ms then r.hist.counts i + 1 else r.hist.counts i) ∧
    (r.ObserveDuration ms).hist.sum = r.hist.sum + ms ∧
    (r.ObserveDuration ms).hist.total = r.hist.total + 1 ∧
    (ms = 0 → ∀ i : Fin 8,
      (r.ObserveDuration ms).hist.counts i = r.hist.counts i + 1) ∧
    (ms > 30000 → ∀ i : Fin 8,
      (r.ObserveDuration ms).hist.counts i = r.hist.counts i) := by
  have hpos : ∀ i : Fin 8, (0 : Int) ≤ metrics.histBuckets i := by decide
  have hmax : ∀ i : Fin 8, metrics.histBuckets i ≤ 30000 := by decide
  refine ⟨fun i => ?_, rfl, rfl, fun h0 i => ?_, fun hbig i => ?_⟩
  · simp only [metrics.Registry.ObserveDuration, metrics.histogram.observe,
      ge_iff_le]
  · simp only [metrics.Registry.ObserveDuration, metrics.histogram.observe,
      if_pos (h0 ▸ hpos i)]
  · have : ¬ ms ≤ metrics.histBuckets i := by
      have := hmax i
      omega
    simp only [metrics.Registry.ObserveDuration, metrics.histogram.observe,
      if_neg this]

/-- Witness for `observeDuration_buckets` at concrete inputs: at ms = 0 the
bucket at index 3 is incremented, and at ms = 40000 the largest bucket is
untouched. -/
theorem observeDuration_buckets_witness :
    (metrics.New.ObserveDuration 0).hist.counts 3
        = metrics.New.hist.counts 3 + 1 ∧
    (metrics.New.ObserveDuration 40000).hist.counts 7
        = metrics.New.hist.counts 7 := by
  refine ⟨(observeDuration_buckets metrics.New 0).2.2.2.1 rfl 3, ?_⟩
  exact (observeDuration_buckets metrics.New 40000).2.2.2.2 (by norm_num) 7

/-- C8: after a normal return of the inner handler, the Metrics middleware
reads the outcome from the request context (defaulting to "failed" when no
state is attached or the outcome was never set) and increments exactly one
outcome counter: success iff the outcome is "success", timeout iff it is
"timeout", and failed in every other case, including the empty string and
unrecognized values. -/
theorem metrics_outcome_counters (reg : metrics.Registry) (ms : Int)
    (s : middleware.ctxState) :
    ((middleware.Metrics reg ms ⟨s, false⟩).convSuccess
        + (middleware.Metrics reg ms ⟨s, false⟩).convTimeout
        + (middleware.Metrics reg ms ⟨s, false⟩).convFailed
      = reg.convSuccess + reg.convTimeout + reg.convFailed + 1) ∧
    ((middleware.Metrics reg ms ⟨s, false⟩).convSuccess = reg.convSuccess + 1
      ↔ ∃ st, s = some st ∧ st.outcome = "success") ∧
    ((middleware.Metrics reg ms ⟨s, false⟩).convTimeout = reg.convTimeout + 1
      ↔ ∃ st, s = some st ∧ st.outcome = "timeout") ∧
    ((middleware.Metrics reg ms ⟨s, false⟩).convFailed = reg.convFailed + 1
      ↔ ¬ ∃ st, s = some st ∧
            (st.outcome = "success" ∨ st.outcome = "timeout")) := by
  cases s with
  | none =>
    simp [middleware.Metrics, metrics.Registry.IncInFlight,
      metrics.Registry.DecInFlight, metrics.Registry.ObserveDuration,
      metrics.Registry.IncFailed]
    omega
  | some st =>
    by_cases hs : st.outcome = "success"
    · simp [middleware.Metrics, hs, metrics.Registry.IncInFlight,
        metrics.Registry.DecInFlight, metrics.Registry.ObserveDuration,
        metrics.Registry.IncSuccess]
      omega
    · by_cases ht : st.outcome = "timeout"
      · simp [middleware.Metrics, ht, metrics.Registry.IncInFlight,
          metrics.Registry.DecInFlight, metrics.Registry.ObserveDuration,
          metrics.Registry.IncTimeout]
        omega
      · by_cases he : st.outcome = ""
        · simp [middleware.Metrics, he, metrics.Registry.IncInFlight,
            metrics.Registry.DecInFlight, metrics.Registry.ObserveDuration,
            metrics.Registry.IncFailed, hs, ht]
          omega
        · simp [middleware.Metrics, he, hs, ht, metrics.Registry.IncInFlight,
            metrics.Registry.DecInFlight, metrics.Registry.ObserveDuration,
            metrics.Registry.IncFailed]
          omega

/-- Counterexample to C2 as stated: the Metrics middleware uses no deferred
cleanup, so when the inner handler exits non-normally (panics) the
decrement after `next.ServeHTTP` never runs and the request's net
contribution to the in-flight gauge is +1, not zero. -/
theorem metrics_inflight_leak_on_panic :
    (middleware.Metrics metrics.New 0 ⟨none, true⟩).convInFlight
      ≠ metrics.New.convInFlight := by decide

/-- C2 (amended): the in-flight gauge is incremented exactly once before the
inner handler is invoked and decremented exactly once after it returns
normally, so each normally-completing request's net gauge change is zero;
the middleware has no scoped cleanup, so a non-normal exit of the inner
handler skips the decrement and leaves a net change of +1. -/
theorem metrics_inflight_balanced (reg : metrics.Registry) (ms : Int)
    (s : middleware.ctxState) :
    (reg.IncInFlight).convInFlight = reg.convInFlight + 1 ∧
    (middleware.Metrics reg ms ⟨s, false⟩).convInFlight = reg.convInFlight ∧
    (middleware.Metrics reg ms ⟨s, true⟩).convInFlight = reg.convInFlight + 1 := by
  refine ⟨rfl, ?_, rfl⟩
  cases s with
  | none =>
    simp [middleware.Metrics, metrics.Registry.IncInFlight,
      metrics.Registry.DecInFlight, metrics.Registry.ObserveDuration,
      metrics.Registry.IncFailed]
  | some st =>
    by_cases hs : st.outcome = "success"
    · simp [middleware.Metrics, hs, metrics.Registry.IncInFlight,
        metrics.Registry.DecInFlight, metrics.Registry.ObserveDuration,
        metrics.Registry.IncSuccess]
    · by_cases ht : st.outcome = "timeout"
      · simp [middleware.Metrics, ht, metrics.Registry.IncInFlight,
          metrics.Registry.DecInFlight, metrics.Registry.ObserveDuration,
          metrics.Registry.IncTimeout]
      · by_cases he : st.outcome = ""
        · simp [middleware.Metrics, he, hs, ht, metrics.Registry.IncInFlight,
            metrics.Registry.DecInFlight, metrics.Registry.ObserveDuration,
            metrics.Registry.IncFailed]
        · simp [middleware.Metrics, he, hs, ht, metrics.Registry.IncInFlight,
            metrics.Registry.DecInFlight, metrics.Registry.ObserveDuration,
            metrics.Registry.IncFailed]

/-- Counterexample to C5 as stated: when the inner handler calls WriteHeader
twice (200 then 500), the logged status field is 500 — the last code
written — while the first code written was 200. -/
theorem logging_status_not_first_write :
    (middleware.Logging (some ⟨"req", "", ""⟩) "2026-01-01T00:00:00Z" "POST"
        "/convert" 5 [200, 500]).status = 500 ∧
    ([200, 500] : List Int).headD 200 = 200 ∧ (500 : Int) ≠ 200 := by decide

/-- C5 (amended): the interposed response writer remembers the LAST status
code passed to WriteHeader (each call overwrites the field), so the status
field of the emitted log line equals the last code the inner handler wrote,
defaulting to 200 when WriteHeader is never called; when WriteHeader is
called exactly once the logged status is that single (hence also first)
code. -/
theorem logging_status_last_write (s : middleware.ctxState)
    (timeStr method path : String) (durationMs : Int) (writes : List Int) :
    (middleware.Logging s timeStr method path durationMs writes).status
      = writes.getLastD 200 := by
  show (middleware.recorderAfter writes).status = writes.getLastD 200
  have h : ∀ (writes : List Int) (init : middleware.responseRecorder),
      (writes.foldl middleware.responseRecorder.WriteHeader init).status
        = writes.getLastD init.status := by
    intro ws
    induction ws with
    | nil => intro init; rfl
    | cons c rest ih =>
      intro init
      rw [List.foldl_cons, ih, List.getLastD_cons]
      rfl
  exact h writes { status := 200 }

/-- C7: Convert returns the Timeout error when the subprocess failed with the
deadline exceeded; the ConversionFailed error wrapping the process error
detail when the subprocess failed without a timeout; the NoOutput error when
the subprocess exited cleanly but the file in outDir named by replacing the
input's base-name extension with .pdf is missing or zero-length; and
otherwise succeeds with the path of that artifact in outDir (a path that is
absolute whenever outDir is absolute). -/
theorem convert_outcomes (inputPath outDir : String)
    (env : converter.ConvertEnv) :
    (∀ d, env.procErr = some d → env.deadlineExceeded = true →
      converter.Convert inputPath outDir env = .error .timeout) ∧
    (∀ d, env.procErr = some d → env.deadlineExceeded = false →
      converter.Convert inputPath outDir env
        = .error (.conversionFailed d)) ∧
    (env.procErr = none → env.statSize = none ∨ env.statSize = some 0 →
      converter.Convert inputPath outDir env = .error .noOutput) ∧
    (∀ n, env.procErr = none → env.statSize = some n → n ≠ 0 →
      converter.Convert inputPath outDir env
        = .ok (converter.filepathJoin outDir (converter.pdfName inputPath)) ∧
      (outDir.data.headD ' ' = '/' →
        (converter.filepathJoin outDir
          (converter.pdfName inputPath)).data.headD ' ' = '/')) := by
  refine ⟨fun d hp hd => ?_, fun d hp hd => ?_, fun hp hs => ?_,
    fun n hp hs hn => ⟨?_, fun habs => ?_⟩⟩
  · simp [converter.Convert, hp, hd]
  · simp [converter.Convert, hp, hd]
  · rcases hs with hs | hs <;> simp [converter.Convert, hp, hs]
  · simp [converter.Convert, hp, hs, hn]
  · have hne : outDir.data ≠ [] := by
      intro h
      rw [h] at habs
      exact absurd habs (by decide)
    unfold converter.filepathJoin
    rw [String.data_append, String.data_append]
    rcases hd : outDir.data with _ | ⟨c, cs⟩
    · exact absurd hd hne
    · rw [hd] at habs
      simpa using habs

/-- Witness for `convert_outcomes`: a clean run whose stat finds a 5-byte
PDF returns the joined absolute path with no error, and a failed run with
the deadline exceeded returns the Timeout error. -/
theorem convert_outcomes_witness :
    converter.Convert "/tmp/docpdf-1/input.docx" "/tmp/docpdf-1"
        ⟨none, false, some 5⟩ = .ok "/tmp/docpdf-1/input.pdf" ∧
    converter.Convert "in.docx" "/out" ⟨some "exit status 1", true, none⟩
        = .error .timeout := by
  constructor
  · have h := ((convert_outcomes "/tmp/docpdf-1/input.docx" "/tmp/docpdf-1"
      ⟨none, false, some 5⟩).2.2.2 5 rfl rfl (by norm_num)).1
    rw [h]
    simp only [Except.ok.injEq]
    decide
  · exact (convert_outcomes "in.docx" "/out"
      ⟨some "exit status 1", true, none⟩).1 "exit status 1" rfl rfl

/-- C10: hasDocxMagic returns false for every byte slice shorter than 4
bytes, and a POST /convert upload whose file content is shorter than 4
bytes (including the empty file) is answered 415 without creating the
temporary directory or invoking the Converter. -/
theorem short_upload_rejected (env : handler.ServeEnv)
    (s : middleware.ctxState) (hp : env.parseFails = false)
    (hf : env.fileFieldMissing = false) (hr : env.readFails = false)
    (hlen : env.fileBytes.length < 4) :
    (∀ data : List Nat, data.length < 4 → handler.hasDocxMagic data = false) ∧
    handler.ServeHTTP "POST" env s = (⟨415, false, false⟩, s) ∧
    (handler.ServeHTTP "POST" env s).1.tempDirCreated = false ∧
    (handler.ServeHTTP "POST" env s).1.converterCalled = false := by
  have hshort : ∀ data : List Nat, data.length < 4 →
      handler.hasDocxMagic data = false := by
    intro data hd
    simp [handler.hasDocxMagic, hd]
  have htake : env.fileBytes.take (handler.maxFileSize + 1) = env.fileBytes :=
    List.take_of_length_le (by have := hlen; unfold handler.maxFileSize; omega)
  have hmain : handler.ServeHTTP "POST" env s = (⟨415, false, false⟩, s) := by
    unfold handler.ServeHTTP
    rw [if_neg (by simp), if_neg (by simp [hp]), if_neg (by simp [hf]),
      if_neg (by simp [hr])]
    simp only [htake]
    rw [if_neg (by have := hlen; unfold handler.maxFileSize; omega),
      if_pos (by simp [hshort env.fileBytes hlen])]
  exact ⟨hshort, hmain, by rw [hmain], by rw [hmain]⟩

/-- Witness for `short_upload_rejected`: a 2-byte upload (just "PK") on an
otherwise well-formed POST is answered 415 with no temp dir and no
converter call. -/
theorem short_upload_rejected_witness :
    handler.ServeHTTP "POST"
        { parseFails := false, fileFieldMissing := false, readFails := false,
          fileBytes := [0x50, 0x4B], mkdirTempFails := false,
          writeFileFails := false, convert := .error .timeout,
          pdfRead := none } none
      = (⟨415, false, false⟩, none) :=
  (short_upload_rejected _ none rfl rfl rfl (by decide)).2.1

/-- Helper: a well-formed POST whose upload exceeds maxFileSize is answered
413 by the length check, before the magic check is reached. -/
theorem serve_oversized_413 (env : handler.ServeEnv)
    (s : middleware.ctxState) (hp : env.parseFails = false)
    (hf : env.fileFieldMissing = false) (hr : env.readFails = false)
    (hlen : env.fileBytes.length > handler.maxFileSize) :
    handler.ServeHTTP "POST" env s = (⟨413, false, false⟩, s) := by
  unfold handler.ServeHTTP
  rw [if_neg (by simp), if_neg (by simp [hp]), if_neg (by simp [hf]),
    if_neg (by simp [hr])]
  simp only []
  rw [if_pos (by rw [List.length_take]; omega)]

/-- Counterexample to C6 as stated: an uploaded input of 10 MiB + 1 zero
bytes does not begin with 50 4B 03 04, yet the response is 413 (the size
check at step 5 precedes the magic check at step 6), not 415. -/
theorem oversized_nonmagic_input_gets_413 :
    handler.hasDocxMagic
        (List.replicate (handler.maxFileSize + 1) 0) = false ∧
    (handler.ServeHTTP "POST"
        { parseFails := false, fileFieldMissing := false, readFails := false,
          fileBytes := List.replicate (handler.maxFileSize + 1) 0,
          mkdirTempFails := false, writeFileFails := false,
          convert := .error .timeout, pdfRead := none } none).1.status
      = 413 ∧ (413 : Int) ≠ 415 := by
  have hmagic : handler.hasDocxMagic
      (List.replicate (handler.maxFileSize + 1) 0) = false := by
    unfold handler.hasDocxMagic
    rw [if_neg]
    · rw [List.take_replicate]
      rw [min_eq_left (by unfold handler.maxFileSize; omega)]
      decide
    · rw [List.length_replicate]
      unfold handler.maxFileSize
      omega
  refine ⟨hmagic, ?_, by norm_num⟩
  rw [serve_oversized_413 _ none rfl rfl rfl
    (by rw [List.length_replicate]; omega)]

/-- C6 (amended): for every well-formed POST upload within the 10 MiB size
cap whose content does not begin with bytes 50 4B 03 04, the response is
415, with no temporary directory created and no converter call. (As stated
the claim fails only for inputs that trip an earlier terminal branch, e.g.
oversized uploads, which are answered 413.) -/
theorem nonmagic_upload_rejected_415 (env : handler.ServeEnv)
    (s : middleware.ctxState) (hp : env.parseFails = false)
    (hf : env.fileFieldMissing = false) (hr : env.readFails = false)
    (hlen : env.fileBytes.length ≤ handler.maxFileSize)
    (hmagic : handler.hasDocxMagic env.fileBytes = false) :
    handler.ServeHTTP "POST" env s = (⟨415, false, false⟩, s) := by
  have htake : env.fileBytes.take (handler.maxFileSize + 1) = env.fileBytes :=
    List.take_of_length_le (by omega)
  unfold handler.ServeHTTP
  rw [if_neg (by simp), if_neg (by simp [hp]), if_neg (by simp [hf]),
    if_neg (by simp [hr])]
  simp only [htake]
  rw [if_neg (by omega), if_pos (by simp [hmagic])]

/-- Witness for `nonmagic_upload_rejected_415`: a 5-byte plain-text upload
is answered 415. -/
theorem nonmagic_upload_rejected_415_witness :
    handler.ServeHTTP "POST"
        { parseFails := false, fileFieldMissing := false, readFails := false,
          fileBytes := [0x48, 0x65, 0x6C, 0x6C, 0x6F],
          mkdirTempFails := false, writeFileFails := false,
          convert := .error .timeout, pdfRead := none } none
      = (⟨415, false, false⟩, none) :=
  nonmagic_upload_rejected_415 _ none rfl rfl rfl (by decide) (by decide)

/-- C1 at its failing input: on a fully successful conversion (valid magic,
converter returns a path, non-empty PDF read back) the handler embedded
from src answers 200 but performs no SetOutcome/SetLogError call, leaving
the request-context outcome empty; the Metrics middleware therefore counts
the request as "failed", not "success". -/
theorem handler_success_not_recorded :
    (handler.ServeHTTP "POST"
        { parseFails := false, fileFieldMissing := false, readFails := false,
          fileBytes := [0x50, 0x4B, 0x03, 0x04, 0, 0, 0, 0],
          mkdirTempFails := false, writeFileFails := false,
          convert := .ok "/tmp/docpdf-1/input.pdf",
          pdfRead := some [0x25, 0x50, 0x44, 0x46] }
        (some { id := "req-1", logError := "", outcome := "" })).1.status
      = 200 ∧
    (handler.ServeHTTP "POST"
        { parseFails := false, fileFieldMissing := false, readFails := false,
          fileBytes := [0x50, 0x4B, 0x03, 0x04, 0, 0, 0, 0],
          mkdirTempFails := false, writeFileFails := false,
          convert := .ok "/tmp/docpdf-1/input.pdf",
          pdfRead := some [0x25, 0x50, 0x44, 0x46] }
        (some { id := "req-1", logError := "", outcome := "" })).2
      = some { id := "req-1", logError := "", outcome := "" } ∧
    (middleware.Metrics metrics.New 7
        ⟨(handler.ServeHTTP "POST"
            { parseFails := false, fileFieldMissing := false,
              readFails := false,
              fileBytes := [0x50, 0x4B, 0x03, 0x04, 0, 0, 0, 0],
              mkdirTempFails := false, writeFileFails := false,
              convert := .ok "/tmp/docpdf-1/input.pdf",
              pdfRead := some [0x25, 0x50, 0x44, 0x46] }
            (some { id := "req-1", logError := "", outcome := "" })).2,
          false⟩).convFailed = 1 ∧
    (middleware.Metrics metrics.New 7
        ⟨(handler.ServeHTTP "POST"
            { parseFails := false, fileFieldMissing := false,
              readFails := false,
              fileBytes := [0x50, 0x4B, 0x03, 0x04, 0, 0, 0, 0],
              mkdirTempFails := false, writeFileFails := false,
              convert := .ok "/tmp/docpdf-1/input.pdf",
              pdfRead := some [0x25, 0x50, 0x44, 0x46] }
            (some { id := "req-1", logError := "", outcome := "" })).2,
          false⟩).convSuccess = 0 := by
  refine ⟨?_, ?_, ?_, ?_⟩ <;> decide

theorem histBuckets_mono : ∀ i j : Fin 8, i ≤ j →
    metrics.histBuckets i ≤ metrics.histBuckets j := by decide

theorem histBuckets_lt_le : ∀ i j : Fin 8,
    metrics.histBuckets i < metrics.histBuckets j → i ≤ j := by decide

theorem applyObservations_mono (obs : List Int) (r : metrics.Registry)
    (hmono : ∀ i j : Fin 8, i ≤ j → r.hist.counts i ≤ r.hist.counts j) :
    ∀ i j : Fin 8, i ≤ j →
      (r.applyObservations obs).hist.counts i
        ≤ (r.applyObservations obs).hist.counts j := by
  induction obs generalizing r with
  | nil => exact hmono
  | cons ms rest ih =>
    show ∀ i j : Fin 8, i ≤ j →
      ((r.ObserveDuration ms).applyObservations rest).hist.counts i
        ≤ ((r.ObserveDuration ms).applyObservations rest).hist.counts j
    refine ih (r.ObserveDuration ms) ?_
    intro i j hij
    have hc := hmono i j hij
    have hb := histBuckets_mono i j hij
    simp only [metrics.Registry.ObserveDuration, metrics.histogram.observe]
    by_cases hi : ms ≤ metrics.histBuckets i
    · rw [if_pos hi, if_pos (le_trans hi hb)]
      omega
    · rw [if_neg hi]
      by_cases hj : ms ≤ metrics.histBuckets j
      · rw [if_pos hj]; omega
      · rw [if_neg hj]; omega

theorem applyObservations_total (obs : List Int) (r : metrics.Registry) :
    (r.applyObservations obs).hist.total = r.hist.total + obs.length := by
  induction obs generalizing r with
  | nil => simp [metrics.Registry.applyObservations]
  | cons ms rest ih =>
    show ((r.ObserveDuration ms).applyObservations rest).hist.total = _
    rw [ih]
    simp only [metrics.Registry.ObserveDuration, metrics.histogram.observe,
      List.length_cons]
    push_cast
    omega

theorem writeTo_inf_line (r : metrics.Registry) :
    r.writeTo.getD 18 ""
      = "docpdf_conversion_duration_ms_bucket\x7ble=\"+Inf\"\x7d "
          ++ toString r.hist.total := rfl

/-- C4: starting from a fresh Registry, after any sequence of
ObserveDuration calls the cumulative count stored for a larger threshold is
≥ the count stored for a smaller one, and the +Inf bucket line of the text
exposition carries exactly the number of ObserveDuration calls made. -/
theorem histogram_monotone_total (obs : List Int) :
    (∀ i j : Fin 8, metrics.histBuckets i < metrics.histBuckets j →
      (metrics.New.applyObservations obs).hist.counts i
        ≤ (metrics.New.applyObservations obs).hist.counts j) ∧
    (metrics.New.applyObservations obs).hist.total = obs.length ∧
    (metrics.New.applyObservations obs).writeTo.getD 18 ""
      = "docpdf_conversion_duration_ms_bucket\x7ble=\"+Inf\"\x7d "
          ++ toString ((obs.length : Int)) := by
  have htotal := applyObservations_total obs metrics.New
  have hzero : (metrics.New.hist.total) = 0 := rfl
  refine ⟨fun i j hlt => ?_, by rw [htotal, hzero, zero_add], ?_⟩
  · exact applyObservations_mono obs metrics.New
      (fun _ _ _ => le_refl 0) i j (histBuckets_lt_le i j hlt)
  · rw [writeTo_inf_line, htotal, hzero, zero_add]

/-- Witness for `histogram_monotone_total` at the observation sequence
[50, 200, 40000]: the smallest bucket's count is ≤ the largest bucket's
count, and the total is 3. -/
theorem histogram_monotone_total_witness :
    (metrics.New.applyObservations [50, 200, 40000]).hist.counts 0
      ≤ (metrics.New.applyObservations [50, 200, 40000]).hist.counts 7 ∧
    (metrics.New.applyObservations [50, 200, 40000]).hist.total = 3 := by
  have h := histogram_monotone_total [50, 200, 40000]
  exact ⟨h.1 0 7 (by decide), by rw [h.2.1]; rfl⟩

theorem hexDigit_isHex : ∀ n : Nat, n < 16 →
    isHexChar (middleware.hexDigit n) = true := by decide

theorem byteHex_isHex (b : Nat) (hb : b < 256) :
    ∀ c ∈ middleware.byteHex b, isHexChar c = true := by
  intro c hc
  simp only [middleware.byteHex, List.mem_cons, List.not_mem_nil,
    or_false] at hc
  rcases hc with h | h <;> subst h
  · exact hexDigit_isHex _ (by omega)
  · exact hexDigit_isHex _ (Nat.mod_lt _ (by norm_num))

theorem bytesHex_isHex (bs : List Nat) (hbs : ∀ b ∈ bs, b < 256) :
    ∀ c ∈ middleware.bytesHex bs, isHexChar c = true := by
  induction bs with
  | nil => intro c hc; simp [middleware.bytesHex] at hc
  | cons b rest ih =>
    intro c hc
    simp only [middleware.bytesHex, List.map_cons, List.flatten_cons,
      List.mem_append] at hc
    rcases hc with hc | hc
    · exact byteHex_isHex b (hbs b (by simp)) c hc
    · exact ih (fun x hx => hbs x (by simp [hx])) c hc

theorem version_nibble_facts : ∀ y : Nat, y < 16 →
    (y ||| 64) / 16 = 4 ∧ (y ||| 64) < 256 := by decide

theorem variant_nibble_facts : ∀ y : Nat, y < 64 →
    middleware.hexDigit ((y ||| 128) / 16) ∈ (['8', '9', 'a', 'b'] : List Char)
      ∧ (y ||| 128) < 256 := by decide

/-- C9: the RequestID middleware echoes a non-empty inbound X-Request-ID
verbatim as the response header; when the header is absent it responds with
the freshly generated identifier, which for every possible value of the 16
random bytes is a 36-character canonical hyphenated lowercase-hex UUID
whose version nibble is 4 and whose variant character is one of 8, 9, a, b,
per the UUIDv4 specification. -/
theorem requestID_header_echo_and_uuid (hdr : String)
    (b0 b1 b2 b3 b4 b5 b6 b7 b8 b9 b10 b11 b12 b13 b14 b15 : Nat)
    (h0 : b0 < 256) (h1 : b1 < 256) (h2 : b2 < 256) (h3 : b3 < 256)
    (h4 : b4 < 256) (h5 : b5 < 256) (h6 : b6 < 256) (h7 : b7 < 256)
    (h8 : b8 < 256) (h9 : b9 < 256) (h10 : b10 < 256) (h11 : b11 < 256)
    (h12 : b12 < 256) (h13 : b13 < 256) (h14 : b14 < 256) (h15 : b15 < 256) :
    (hdr ≠ "" →
      (middleware.RequestID hdr
        [b0, b1, b2, b3, b4, b5, b6, b7, b8, b9, b10, b11, b12, b13, b14,
         b15]).1 = hdr) ∧
    (middleware.RequestID ""
        [b0, b1, b2, b3, b4, b5, b6, b7, b8, b9, b10, b11, b12, b13, b14,
         b15]).1
      = middleware.newUUID
          [b0, b1, b2, b3, b4, b5, b6, b7, b8, b9, b10, b11, b12, b13, b14,
           b15] ∧
    (middleware.newUUID
        [b0, b1, b2, b3, b4, b5, b6, b7, b8, b9, b10, b11, b12, b13, b14,
         b15]).length = 36 ∧
    specCanonicalUUIDv4 (middleware.newUUID
        [b0, b1, b2, b3, b4, b5, b6, b7, b8, b9, b10, b11, b12, b13, b14,
         b15]) := by
  have hy6 : b6 &&& 15 < 16 := Nat.lt_succ_of_le Nat.and_le_right
  have hy8 : b8 &&& 63 < 64 := Nat.lt_succ_of_le Nat.and_le_right
  have hv6 : ((b6 &&& 15) ||| 64) < 256 := (version_nibble_facts _ hy6).2
  have hv8 : ((b8 &&& 63) ||| 128) < 256 := (variant_nibble_facts _ hy8).2
  have hdata : (middleware.newUUID
      [b0, b1, b2, b3, b4, b5, b6, b7, b8, b9, b10, b11, b12, b13, b14,
       b15]).data
      = middleware.bytesHex [b0, b1, b2, b3]
        ++ '-' :: middleware.bytesHex [b4, b5]
        ++ '-' :: middleware.bytesHex [(b6 &&& 15) ||| 64, b7]
        ++ '-' :: middleware.bytesHex [(b8 &&& 63) ||| 128, b9]
        ++ '-' :: middleware.bytesHex [b10, b11, b12, b13, b14, b15] := rfl
  refine ⟨fun hne => by simp [middleware.RequestID, hne], rfl, ?_, ?_⟩
  · show (middleware.newUUID
      [b0, b1, b2, b3, b4, b5, b6, b7, b8, b9, b10, b11, b12, b13, b14,
       b15]).data.length = 36
    rw [hdata]
    simp [middleware.bytesHex, middleware.byteHex]
  · refine ⟨middleware.bytesHex [b0, b1, b2, b3],
      middleware.bytesHex [b4, b5],
      middleware.bytesHex [(b6 &&& 15) ||| 64, b7],
      middleware.bytesHex [(b8 &&& 63) ||| 128, b9],
      middleware.bytesHex [b10, b11, b12, b13, b14, b15],
      hdata, rfl, rfl, rfl, rfl, rfl, ?_, ?_, ?_⟩
    · intro c hc
      rw [List.mem_append, List.mem_append, List.mem_append,
        List.mem_append] at hc
      rcases hc with ((((hc | hc) | hc) | hc) | hc)
      · refine bytesHex_isHex _ ?_ c hc
        intro x hx
        simp only [List.mem_cons, List.not_mem_nil, or_false] at hx
        rcases hx with rfl | rfl | rfl | rfl <;> assumption
      · refine bytesHex_isHex _ ?_ c hc
        intro x hx
        simp only [List.mem_cons, List.not_mem_nil, or_false] at hx
        rcases hx with rfl | rfl <;> assumption
      · refine bytesHex_isHex _ ?_ c hc
        intro x hx
        simp only [List.mem_cons, List.not_mem_nil, or_false] at hx
        rcases hx with rfl | rfl <;> assumption
      · refine bytesHex_isHex _ ?_ c hc
        intro x hx
        simp only [List.mem_cons, List.not_mem_nil, or_false] at hx
        rcases hx with rfl | rfl <;> assumption
      · refine bytesHex_isHex _ ?_ c hc
        intro x hx
        simp only [List.mem_cons, List.not_mem_nil, or_false] at hx
        rcases hx with rfl | rfl | rfl | rfl | rfl | rfl <;> assumption
    · show middleware.hexDigit (((b6 &&& 15) ||| 64) / 16) = '4'
      rw [(version_nibble_facts _ hy6).1]
      decide
    · show middleware.hexDigit (((b8 &&& 63) ||| 128) / 16)
        ∈ (['8', '9', 'a', 'b'] : List Char)
      exact (variant_nibble_facts _ hy8).1

/-- Witness for `requestID_header_echo_and_uuid`: a request carrying
X-Request-ID "corr-1" is echoed verbatim, and the UUID generated from 16
zero bytes meets the structural UUIDv4 constraints. -/
theorem requestID_header_echo_and_uuid_witness :
    (middleware.RequestID "corr-1"
        [0, 0, 0, 0, 0, 0, 0, 0, 0, 0, 0, 0, 0, 0, 0, 0]).1 = "corr-1" ∧
    specCanonicalUUIDv4 (middleware.newUUID
        [0, 0, 0, 0, 0, 0, 0, 0, 0, 0, 0, 0, 0, 0, 0, 0]) := by
  have h := requestID_header_echo_and_uuid "corr-1" 0 0 0 0 0 0 0 0 0 0 0 0
    0 0 0 0 (by norm_num) (by norm_num) (by norm_num) (by norm_num)
    (by norm_num) (by norm_num) (by norm_num) (by norm_num) (by norm_num)
    (by norm_num) (by norm_num) (by norm_num) (by norm_num) (by norm_num)
    (by norm_num) (by norm_num)
  exact ⟨h.1 (by decide), h.2.2.2⟩
